import Mathlib

/-
Shallow embedding of the path-matching core of `db_ingester.py`
(class `PathMatch` and its helpers).

Modelling decisions, stated once here:

* Python `is` comparisons between strings (`match_state is 'undetermined'`,
  `pattern is '!DIRS!'`, ...) are modelled as structural string equality.
  Object identity is outside a shallow embedding; the module compares
  interned-style literal sentinels and the intent is value comparison.

* The candidate path is the external collaborator of the program: a base
  file name plus the ordered list of ancestor directory names of an
  absolute path, root to immediate parent.  `list(path.parent.absolute())`
  in `prepare_path_parts` is modelled as the `parts` sequence of the
  absolute parent, whose first element is the root component "/"
  (as in `pathlib`, `Path('/usr/local').parts == ('/', 'usr', 'local')`).

* Exceptions raised while matching (Python `re.error` from a malformed
  regex compiled lazily by `re.match`, or `TypeError` from passing `None`
  to `re.match`) are modelled by `Option`: `none` means the call raises.

* `re.match` is modelled for the regex fragment the rules use: literal
  characters, a leading `^`, `$`, `.`, `*` on a single atom, and
  backslash escapes of non-alphanumeric characters.  Metacharacters
  outside this fragment make the pattern fall outside the model and are
  mapped to a parse failure.  A lone leading `*` is a genuine Python
  `re.error` ("nothing to repeat").  `re.match` anchors at the start of
  the string only (prefix match); `$` requires the end of the string.

* The `while` loop of `check_directories` is modelled with explicit fuel
  `M st + 1` where `M st` counts the remaining elements of both cursors;
  the termination theorem for claim C9 shows this fuel always suffices,
  so the fuelled loop coincides with the unbounded source loop.
-/

/-! ## Model of the Python `re` fragment used by the rules -/

/-- One regex atom: a literal character or `.` (any character except newline). -/
inductive Atom where
  | char (c : Char)
  | any
deriving DecidableEq

/-- One parsed regex piece: a single atom, a starred atom, or `$`. -/
inductive Piece where
  | once (a : Atom)
  | star (a : Atom)
  | endA
deriving DecidableEq

def atomMatch : Atom → Char → Bool
  | Atom.char c, x => x == c
  | Atom.any, x => x != '\n'

/-- Metacharacters outside the modelled regex fragment. -/
def unmodelledChar (c : Char) : Bool :=
  c == '(' || c == ')' || c == '[' || c == ']' || c == '\x7b' || c == '\x7d' ||
  c == '+' || c == '?' || c == '|' || c == '^'

/-- Parse a pattern (after the optional leading `^`) into pieces.
`none` models a pattern on which `re.compile` raises `re.error`
(e.g. a leading `*`, "nothing to repeat") or that falls outside the
modelled fragment. -/
def parsePieces : List Char → Option (List Piece)
  | [] => some []
  | '*' :: _ => none
  | '$' :: '*' :: _ => none
  | '$' :: rest => (parsePieces rest).map fun ps => Piece.endA :: ps
  | ['\\'] => none
  | '\\' :: _ :: '*' :: '*' :: _ => none
  | '\\' :: c :: '*' :: rest =>
      if c.isAlpha || c.isDigit then none
      else (parsePieces rest).map fun ps => Piece.star (Atom.char c) :: ps
  | '\\' :: c :: rest =>
      if c.isAlpha || c.isDigit then none
      else (parsePieces rest).map fun ps => Piece.once (Atom.char c) :: ps
  | _ :: '*' :: '*' :: _ => none
  | c :: '*' :: rest =>
      if unmodelledChar c then none
      else (parsePieces rest).map fun ps =>
        Piece.star (if c == '.' then Atom.any else Atom.char c) :: ps
  | c :: rest =>
      if unmodelledChar c then none
      else (parsePieces rest).map fun ps =>
        Piece.once (if c == '.' then Atom.any else Atom.char c) :: ps

/-- `re.match` anchors at position 0, so a leading `^` is redundant. -/
def parsePattern (s : String) : Option (List Piece) :=
  match s.toList with
  | '^' :: rest => parsePieces rest
  | l => parsePieces l

/-- Remainders of `s` after `a*` consumed zero or more matching characters. -/
def starRems (a : Atom) : List Char → List (List Char)
  | [] => [[]]
  | x :: xs => (x :: xs) :: (if atomMatch a x then starRems a xs else [])

/-- Do the pieces match some prefix of `s`? -/
def matchPieces : List Piece → List Char → Bool
  | [], _ => true
  | Piece.endA :: ps, s => s.isEmpty && matchPieces ps s
  | Piece.once _ :: _, [] => false
  | Piece.once a :: ps, x :: xs => atomMatch a x && matchPieces ps xs
  | Piece.star a :: ps, s => (starRems a s).any fun rem => matchPieces ps rem

/-- Model of `bool(re.match(pat, s))`; `none` models a raised `re.error`. -/
def reMatchO (pat s : String) : Option Bool :=
  (parsePattern pat).map fun ps => matchPieces ps s.toList

/-- A pattern inside the modelled fragment that compiles without error. -/
def regexOk (s : String) : Bool :=
  (parsePattern s).isSome

/-! ## Data model -/

/-- The string sentinels `'undetermined' | 'succeeded' | 'failed'` of
`PathMatch.match_state`. -/
inductive MatchSt where
  | undetermined
  | succeeded
  | failed
deriving DecidableEq

/-- The rule-type sentinels returned by `PathMatch.get_rule_type`. -/
inductive RuleType where
  | root
  | skip_variable
  | skip_fixed
  | dir_name
deriving DecidableEq

/-- The `rules_dict` consumed by `PathMatch`: a mapping with optional
keys `name` (regex string) and `directories` (token string). -/
structure Rules where
  name : Option String
  directories : Option String
deriving DecidableEq

/-- A candidate path: base file name plus the ancestor directory names of
the absolute path, ordered root to immediate parent (root itself excluded). -/
structure PathC where
  name : String
  parents : List String
deriving DecidableEq

/-- The mutable per-invocation fields of `PathMatch` used by
`check_directories`: the two iterators (their remaining elements), the
current pattern and part, the match state and the `variable_skip` flag. -/
structure MState where
  patterns : List String
  path_parts : List String
  pattern : Option String
  part : Option String
  match_state : MatchSt
  variable_skip : Bool
deriving DecidableEq

/-! ## Tokenizer (`get_rule_type` and `prepare_path_patterns`) -/

/-- `path_pattern_string.split(sep='/')`, on character lists. -/
def splitSlash : List Char → List (List Char)
  | [] => [[]]
  | c :: rest =>
    if c == '/' then [] :: splitSlash rest
    else match splitSlash rest with
      | [] => [[c]]
      | g :: gs => (c :: g) :: gs

/-- `int()` on a string of ASCII digits. -/
def digitsToNat (cs : List Char) : Nat :=
  cs.foldl (fun n c => n * 10 + (c.toNat - 48)) 0

/-- Model of `re.match(r'!DIRS_(?P<number>\d+)!', pattern)` followed by
`int(match.group('number'))`: a `"!DIRS_"` prefix, one or more digits, then
`'!'` (anything may follow: `re.match` is a prefix match).  `\d` is modelled
as an ASCII digit. -/
def parseDirsN (s : String) : Option Nat :=
  if s.toList.take 6 = ['!', 'D', 'I', 'R', 'S', '_'] then
    match (s.toList.drop 6).takeWhile Char.isDigit,
        (s.toList.drop 6).drop
          ((s.toList.drop 6).takeWhile Char.isDigit).length with
    | [], _ => none
    | c :: cs, '!' :: _ => some (digitsToNat (c :: cs))
    | _ :: _, _ => none
  else none

/-- `PathMatch.get_rule_type`, as the source executes.  Line 246 assigns
`rule_type = 'root'` when the pattern is `'!ROOT!'`, but the next statement
(line 247) is a fresh `if`/`else`, not `elif`, so every pattern is then
reclassified by that second conditional and the `'root'` assignment is dead:
`'!ROOT!'` falls through to its `else` branch and comes out as `'dir_name'`. -/
def get_rule_type (pattern : String) : RuleType × Option Nat :=
  if pattern = "!DIRS!" then (RuleType.skip_variable, none)
  else match parseDirsN pattern with
    | some n => (RuleType.skip_fixed, some n)
    | none => (RuleType.dir_name, none)

/-- Modelled from the spec: the classification the source documents
(docstrings of `check_path` and `eval_rule_root`) and the spec states,
i.e. `get_rule_type` with the dead `'root'` branch actually reachable
(line 247 read as `elif`).  Used to compare code and spec on claim C2. -/
def get_rule_type_spec (pattern : String) : RuleType × Option Nat :=
  if pattern = "!ROOT!" then (RuleType.root, none)
  else if pattern = "!DIRS!" then (RuleType.skip_variable, none)
  else match parseDirsN pattern with
    | some n => (RuleType.skip_fixed, some n)
    | none => (RuleType.dir_name, none)

/-- `PathMatch.prepare_path_patterns`: split the rule string on `/` and
reverse (the automaton consumes tokens innermost first). -/
def prepare_path_patterns (path_pattern_string : String) : List String :=
  ((splitSlash path_pattern_string.toList).map fun cs => String.mk cs).reverse

/-- `PathMatch.prepare_path_parts`: the components of the absolute parent
directory (root component `"/"` first), reversed. -/
def prepare_path_parts (path : PathC) : List String :=
  ("/" :: path.parents).reverse

/-- `PathMatch.initialize_check_dirs_loop` plus the two assignments on
lines 213-214 of `check_directories`: both cursors positioned on the first
element of the reversed sequences, state `undetermined`, flag cleared. -/
def init_check_dirs_loop (dirs_rule : String) (path : PathC) : MState :=
  let pats := prepare_path_patterns dirs_rule
  let parts := prepare_path_parts path
  { patterns := pats.tail
    path_parts := parts.tail
    pattern := pats.head?
    part := parts.head?
    match_state := MatchSt.undetermined
    variable_skip := false }

/-! ## The automaton step (`eval_rule_*` and `validate_pattern_part`) -/

/-- `PathMatch.eval_rule_root`: draw one element from `path_parts` (without
storing it); succeed if the iterator was exhausted, succeed (with a warning,
which does not affect the verdict) under `variable_skip`, otherwise fail. -/
def eval_rule_root (st : MState) : MState :=
  { st with
    path_parts := st.path_parts.tail
    match_state :=
      if st.path_parts.head? = none then MatchSt.succeeded
      else if st.variable_skip then MatchSt.succeeded
      else MatchSt.failed }

/-- `PathMatch.eval_rule_skip_fixed`: silently drop `skip_number - 1`
elements of `path_parts` (`next(..., None)` never raises), fail if the
current `part` is `None`, then draw the next `part` and `pattern`. -/
def eval_rule_skip_fixed (skip_number : Nat) (st : MState) : MState :=
  let dropped := st.path_parts.drop (skip_number - 1)
  { st with
    match_state := if st.part = none then MatchSt.failed else st.match_state
    part := dropped.head?
    path_parts := dropped.tail
    pattern := st.patterns.head?
    patterns := st.patterns.tail }

/-- `PathMatch.eval_rule_skip_variable`: draw the next pattern and set
`variable_skip`. -/
def eval_rule_skip_variable (st : MState) : MState :=
  { st with
    pattern := st.patterns.head?
    patterns := st.patterns.tail
    variable_skip := true }

/-- `PathMatch.eval_rule_dir_name`: `re.match(self.pattern, self.part)`.
`none` models the raised exception: `re.error` on a malformed pattern, or
`TypeError` when either argument is `None` (unreachable in real runs). -/
def eval_rule_dir_name (st : MState) : Option MState :=
  match st.pattern, st.part with
  | some pat, some prt =>
    (reMatchO pat prt).map fun matched =>
      if matched then
        { st with
          pattern := st.patterns.head?
          patterns := st.patterns.tail
          part := st.path_parts.head?
          path_parts := st.path_parts.tail
          variable_skip := false }
      else if st.variable_skip then
        { st with
          part := st.path_parts.head?
          path_parts := st.path_parts.tail }
      else { st with match_state := MatchSt.failed }
  | _, _ => none

/-- `PathMatch.validate_pattern_part`: token cursor exhausted means
success, otherwise component cursor exhausted means failure.  Note that it
overwrites whatever `match_state` currently holds. -/
def validate_pattern_part (st : MState) : MState :=
  { st with
    match_state :=
      if st.pattern = none then MatchSt.succeeded
      else if st.part = none then MatchSt.failed
      else st.match_state }

/-- The dispatch on `get_rule_type` in the body of the `while` loop
(lines 220-229), parameterized by the classifier so the code's classifier
and the spec's (claim C2) run through the same automaton.  When
`self.pattern` is `None`, `get_rule_type` calls `re.match` on `None` and
raises `TypeError` (modelled `none`; unreachable in real runs). -/
def eval_dispatch_with (rt : String → RuleType × Option Nat) (st : MState) :
    Option MState :=
  match st.pattern with
  | none => none
  | some p =>
    match rt p with
    | (RuleType.root, _) => some (eval_rule_root st)
    | (RuleType.skip_fixed, rule_data) =>
        some (eval_rule_skip_fixed (rule_data.getD 0) st)
    | (RuleType.skip_variable, _) => some (eval_rule_skip_variable st)
    | (RuleType.dir_name, _) => eval_rule_dir_name st

/-- One iteration of the `while` loop: dispatch, then
`validate_pattern_part`. -/
def step_with (rt : String → RuleType × Option Nat) (st : MState) :
    Option MState :=
  (eval_dispatch_with rt st).map validate_pattern_part

/-- The `while self.match_state is 'undetermined'` loop, with fuel. -/
def loopN_with (rt : String → RuleType × Option Nat) :
    Nat → MState → Option MState
  | 0, st => some st
  | Nat.succ n, st =>
    if st.match_state = MatchSt.undetermined then
      (step_with rt st).bind (loopN_with rt n)
    else some st

def optCount : Option α → Nat
  | none => 0
  | some _ => 1

/-- Remaining work: elements left in both iterators plus the two current
cursor slots.  Every loop iteration that stays `undetermined` strictly
decreases it (claim C9), so `M st + 1` iterations always resolve the loop. -/
def M (st : MState) : Nat :=
  st.patterns.length + st.path_parts.length + optCount st.pattern +
    optCount st.part

/-- `PathMatch.check_directories`, parameterized by the classifier.
Returns `some false` immediately when no `'directories'` key exists
(lines 215-217); otherwise runs the loop to completion — the fuel
`M st + 1` provably suffices (claim C9). -/
def check_directories_with (rt : String → RuleType × Option Nat)
    (rules : Rules) (path : PathC) : Option Bool :=
  match rules.directories with
  | none => some false
  | some dirs_rule =>
    (loopN_with rt (M (init_check_dirs_loop dirs_rule path) + 1)
      (init_check_dirs_loop dirs_rule path)).map fun st =>
      if st.match_state = MatchSt.succeeded then true else false

/-- `PathMatch.check_directories` as the source executes. -/
def check_directories (rules : Rules) (path : PathC) : Option Bool :=
  check_directories_with get_rule_type rules path

/-- `check_directories` with the spec's token classification (claim C2). -/
def check_directories_spec (rules : Rules) (path : PathC) : Option Bool :=
  check_directories_with get_rule_type_spec rules path

/-- `PathMatch.check_name`: `name_rule = rules_dict['name']` if present else
`False`; then `if name_rule and re.match(name_rule, path.name)`.  A missing
key and the empty string are both falsy, short-circuiting before `re.match`. -/
def check_name (rules : Rules) (path : PathC) : Option Bool :=
  match rules.name with
  | none => some false
  | some name_rule =>
    if name_rule = "" then some false
    else reMatchO name_rule path.name

/-- `PathMatch.check_path` (lines 127-131): run the name check, then the
directories check, and return their conjunction.  An exception raised by
either check propagates. -/
def check_path (rules : Rules) (path : PathC) : Option Bool :=
  (check_name rules path).bind fun name_match =>
    (check_directories rules path).bind fun dirs_match =>
      some (name_match && dirs_match)

/-- Rule sets whose name pattern (when truthy) and directory tokens all lie
in the modelled regex fragment and compile without error. -/
def rulesOk (rules : Rules) : Bool :=
  (match rules.name with
   | none => true
   | some nr => (nr == "") || regexOk nr) &&
  (match rules.directories with
   | none => true
   | some dirs_rule => (prepare_path_patterns dirs_rule).all regexOk)

/-! ## Helper lemmas about the loop -/

theorem loopN_terminal (rt : String → RuleType × Option Nat) (fuel : Nat)
    (st : MState) (h : st.match_state ≠ MatchSt.undetermined) :
    loopN_with rt fuel st = some st := by
  cases fuel with
  | zero => rfl
  | succ n => simp [loopN_with, h]

theorem validate_keeps_undet_cursors (st : MState)
    (h : (validate_pattern_part st).match_state = MatchSt.undetermined) :
    st.pattern.isSome = true ∧ st.part.isSome = true ∧
      validate_pattern_part st = st := by
  unfold validate_pattern_part at h ⊢
  by_cases hp : st.pattern = none
  · simp [hp] at h
  · by_cases hq : st.part = none
    · simp [hp, hq] at h
    · refine ⟨Option.isSome_iff_ne_none.mpr hp, Option.isSome_iff_ne_none.mpr hq, ?_⟩
      simp [hp, hq]

theorem M_validate (st : MState) : M (validate_pattern_part st) = M st := rfl

theorem draw_eq (l : List α) : l.tail.length + optCount l.head? = l.length := by
  cases l <;> simp [optCount]

theorem head?_mem {l : List α} {a : α} (h : l.head? = some a) : a ∈ l := by
  cases l with
  | nil => simp at h
  | cons x xs =>
    simp only [List.head?_cons, Option.some.injEq] at h
    rw [← h]
    exact List.mem_cons_self x xs

theorem head?_isSome_of_ne_nil {l : List α} (h : l ≠ []) :
    l.head?.isSome = true := by
  cases l with
  | nil => exact absurd rfl h
  | cons x xs => rfl

theorem splitSlash_ne_nil (cs : List Char) : splitSlash cs ≠ [] := by
  cases cs with
  | nil => simp [splitSlash]
  | cons c rest =>
    unfold splitSlash
    by_cases h : c == '/'
    · simp [h]
    · simp only [h, Bool.false_eq_true, if_false]
      cases splitSlash rest <;> simp

theorem prepare_path_patterns_ne_nil (s : String) :
    prepare_path_patterns s ≠ [] := by
  unfold prepare_path_patterns
  intro h
  rw [List.reverse_eq_nil_iff, List.map_eq_nil_iff] at h
  exact splitSlash_ne_nil _ h

theorem prepare_path_parts_ne_nil (p : PathC) : prepare_path_parts p ≠ [] := by
  unfold prepare_path_parts
  intro h
  rw [List.reverse_eq_nil_iff] at h
  exact List.cons_ne_nil _ _ h

theorem step_decrease (rt : String → RuleType × Option Nat) (st st1 : MState)
    (hu : st.match_state = MatchSt.undetermined)
    (hs : step_with rt st = some st1)
    (hu1 : st1.match_state = MatchSt.undetermined) :
    M st1 < M st := by
  unfold step_with eval_dispatch_with at hs
  cases hp : st.pattern with
  | none => simp [hp] at hs
  | some p =>
    simp only [hp] at hs
    rcases hrt : rt p with ⟨rtv, rd⟩
    cases rtv with
    | root =>
      simp only [hrt, Option.map_some', Option.some.injEq] at hs
      rw [← hs] at hu1
      simp only [validate_pattern_part, eval_rule_root] at hu1
      split_ifs at hu1 <;> simp_all
    | skip_fixed =>
      simp only [hrt, Option.map_some', Option.some.injEq] at hs
      rw [← hs, M_validate]
      simp only [M, eval_rule_skip_fixed]
      have e1 := draw_eq (α := String) st.patterns
      have e2 := draw_eq (st.path_parts.drop (rd.getD 0 - 1))
      have e3 : (st.path_parts.drop (rd.getD 0 - 1)).length =
          st.path_parts.length - (rd.getD 0 - 1) := List.length_drop _ _
      have e4 : optCount st.pattern = 1 := by rw [hp]; rfl
      omega
    | skip_variable =>
      simp only [hrt, Option.map_some', Option.some.injEq] at hs
      rw [← hs, M_validate]
      simp only [M, eval_rule_skip_variable]
      have e1 := draw_eq (α := String) st.patterns
      have e4 : optCount st.pattern = 1 := by rw [hp]; rfl
      omega
    | dir_name =>
      simp only [hrt] at hs
      unfold eval_rule_dir_name at hs
      cases hq : st.part with
      | none => simp [hp, hq] at hs
      | some q =>
        simp only [hp, hq] at hs
        cases hm : reMatchO p q with
        | none => simp [hm] at hs
        | some b =>
          rw [hm] at hs
          simp only [Option.map_some', Option.some.injEq] at hs
          cases b with
          | true =>
            simp at hs
            rw [← hs, M_validate]
            simp only [M]
            have e1 := draw_eq (α := String) st.patterns
            have e2 := draw_eq (α := String) st.path_parts
            have e4 : optCount st.pattern = 1 := by rw [hp]; rfl
            have e5 : optCount st.part = 1 := by rw [hq]; rfl
            have e6 : optCount (some p) = 1 := rfl
            have e7 : optCount (some q) = 1 := rfl
            omega
          | false =>
            by_cases hv : st.variable_skip
            · simp [hv] at hs
              rw [← hs, M_validate]
              simp only [M]
              have e2 := draw_eq (α := String) st.path_parts
              have e4 : optCount st.pattern = 1 := by rw [hp]; rfl
              have e5 : optCount st.part = 1 := by rw [hq]; rfl
              have e6 : optCount (some p) = 1 := rfl
              have e7 : optCount (some q) = 1 := rfl
              omega
            · simp [hv] at hs
              rw [← hs] at hu1
              simp [validate_pattern_part, hp, hq] at hu1

theorem loop_resolves (rt : String → RuleType × Option Nat) :
    ∀ (fuel : Nat) (st st2 : MState), M st < fuel →
      loopN_with rt fuel st = some st2 →
      st2.match_state ≠ MatchSt.undetermined := by
  intro fuel
  induction fuel with
  | zero => intro st st2 h; omega
  | succ n ih =>
    intro st st2 hM hloop
    by_cases hu : st.match_state = MatchSt.undetermined
    · rw [loopN_with, if_pos hu] at hloop
      cases hst : step_with rt st with
      | none => rw [hst] at hloop; simp at hloop
      | some st1 =>
        rw [hst] at hloop
        simp only [Option.some_bind] at hloop
        by_cases hu1 : st1.match_state = MatchSt.undetermined
        · exact ih st1 st2
            (Nat.lt_of_lt_of_le (step_decrease rt st st1 hu hst hu1)
              (Nat.lt_succ_iff.mp hM)) hloop
        · rw [loopN_terminal rt n st1 hu1] at hloop
          cases hloop
          exact hu1
    · rw [loopN_terminal rt (n + 1) st hu] at hloop
      cases hloop
      exact hu

theorem loop_isSome :
    ∀ (fuel : Nat) (st : MState),
      (∀ q, st.pattern = some q → regexOk q = true) →
      (∀ q, q ∈ st.patterns → regexOk q = true) →
      (st.match_state = MatchSt.undetermined →
        st.pattern.isSome = true ∧ st.part.isSome = true) →
      (loopN_with get_rule_type fuel st).isSome = true := by
  intro fuel
  induction fuel with
  | zero => intro st _ _ _; rfl
  | succ n ih =>
    intro st h1 h2 h3
    by_cases hu : st.match_state = MatchSt.undetermined
    case neg => rw [loopN_terminal _ _ _ hu]; rfl
    case pos =>
      obtain ⟨hps, hqs⟩ := h3 hu
      obtain ⟨p, hp⟩ := Option.isSome_iff_exists.mp hps
      obtain ⟨q, hq⟩ := Option.isSome_iff_exists.mp hqs
      rw [loopN_with, if_pos hu]
      have hnext : ∀ st1 : MState,
          step_with get_rule_type st = some (validate_pattern_part st1) →
          (∀ r, st1.pattern = some r → regexOk r = true) →
          (∀ r, r ∈ st1.patterns → regexOk r = true) →
          ((step_with get_rule_type st).bind
            (loopN_with get_rule_type n)).isSome = true := by
        intro st1 hstep hb1 hb2
        rw [hstep]
        simp only [Option.some_bind]
        apply ih (validate_pattern_part st1)
        · intro r hr
          exact hb1 r hr
        · intro r hr
          exact hb2 r hr
        · intro hvu
          obtain ⟨a, b, c⟩ := validate_keeps_undet_cursors st1 hvu
          rw [c]
          exact ⟨a, b⟩
      have hdraw : ∀ r, st.patterns.head? = some r → regexOk r = true :=
        fun r hr => h2 r (head?_mem hr)
      have htail : ∀ r, r ∈ st.patterns.tail → regexOk r = true :=
        fun r hr => h2 r (List.tail_subset _ hr)
      rcases hrt : get_rule_type p with ⟨rtv, rd⟩
      cases rtv with
      | root =>
        refine hnext (eval_rule_root st) ?_ ?_ ?_
        · unfold step_with eval_dispatch_with
          simp only [hp, hrt, Option.map_some']
        · intro r hr
          exact h1 r hr
        · intro r hr
          exact h2 r hr
      | skip_fixed =>
        refine hnext (eval_rule_skip_fixed (rd.getD 0) st) ?_ ?_ ?_
        · unfold step_with eval_dispatch_with
          simp only [hp, hrt, Option.map_some']
        · intro r hr
          exact hdraw r hr
        · intro r hr
          exact htail r hr
      | skip_variable =>
        refine hnext (eval_rule_skip_variable st) ?_ ?_ ?_
        · unfold step_with eval_dispatch_with
          simp only [hp, hrt, Option.map_some']
        · intro r hr
          exact hdraw r hr
        · intro r hr
          exact htail r hr
      | dir_name =>
        obtain ⟨ps, hps2⟩ := Option.isSome_iff_exists.mp (h1 p hp)
        have hm : reMatchO p q = some (matchPieces ps q.toList) := by
          unfold reMatchO
          rw [hps2]
          rfl
        cases hb : matchPieces ps q.toList with
        | true =>
          refine hnext ({ st with
              pattern := st.patterns.head?
              patterns := st.patterns.tail
              part := st.path_parts.head?
              path_parts := st.path_parts.tail
              variable_skip := false }) ?_ ?_ ?_
          · unfold step_with eval_dispatch_with eval_rule_dir_name
            simp only [hp, hq, hrt, hm, hb]
            simp
          · intro r hr
            exact hdraw r hr
          · intro r hr
            exact htail r hr
        | false =>
          by_cases hv : st.variable_skip
          · refine hnext ({ st with
                part := st.path_parts.head?
                path_parts := st.path_parts.tail }) ?_ ?_ ?_
            · unfold step_with eval_dispatch_with eval_rule_dir_name
              simp only [hp, hq, hrt, hm, hb]
              simp [hv]
            · intro r hr
              exact h1 r hr
            · intro r hr
              exact h2 r hr
          · refine hnext ({ st with match_state := MatchSt.failed }) ?_ ?_ ?_
            · unfold step_with eval_dispatch_with eval_rule_dir_name
              simp only [hp, hq, hrt, hm, hb]
              simp [hv]
            · intro r hr
              exact h1 r hr
            · intro r hr
              exact h2 r hr

/-! ## Claim theorems -/

/-- C1: for every rule set and candidate path, the top-level verdict of
`check_path` is the conjunction of the name check and the directories
check — whenever a verdict is produced, it is `true` exactly when both
`check_name` and `check_directories` answered `true`; satisfying only one
of the two checks never yields a `true` verdict. -/
theorem c1_check_path_conjunction (r : Rules) (p : PathC) (b : Bool)
    (h : check_path r p = some b) :
    b = true ↔
      check_name r p = some true ∧ check_directories r p = some true := by
  unfold check_path at h
  cases hn : check_name r p with
  | none => rw [hn] at h; simp at h
  | some nm =>
    rw [hn] at h
    simp only [Option.some_bind] at h
    cases hd : check_directories r p with
    | none => rw [hd] at h; simp at h
    | some dm =>
      rw [hd] at h
      simp only [Option.some_bind, Option.some.injEq] at h
      subst h
      simp [Bool.and_eq_true]

theorem c1_check_path_conjunction_witness :
    true = true ↔
      check_name ⟨some "a", some "a"⟩ ⟨"abc", ["a"]⟩ = some true ∧
      check_directories ⟨some "a", some "a"⟩ ⟨"abc", ["a"]⟩ = some true :=
  c1_check_path_conjunction ⟨some "a", some "a"⟩ ⟨"abc", ["a"]⟩ true (by decide)

/-- C2: the claim says `!ROOT!` in first (outermost) position asserts
absoluteness, so that directories rule `"!ROOT!/usr/local"` accepts
`/usr/local/file.txt` and rejects `/opt/usr/local/file.txt`.  The code
disagrees on the accepting case: because line 247 is `if` rather than
`elif`, `get_rule_type` classifies `'!ROOT!'` as a `dir_name` literal
(`eval_rule_root` is dead code) and the code returns a `false` verdict on
`/usr/local/file.txt`.  Under the documented classification
(`get_rule_type_spec`, the `elif` reading), the same automaton produces
exactly the claimed verdicts, so the claim matches the code's own
docstrings and the source is a slip. -/
theorem c2_root_token_code_behavior :
    get_rule_type "!ROOT!" = (RuleType.dir_name, none) ∧
    check_directories ⟨none, some "!ROOT!/usr/local"⟩
      ⟨"file.txt", ["usr", "local"]⟩ = some false ∧
    check_directories_spec ⟨none, some "!ROOT!/usr/local"⟩
      ⟨"file.txt", ["usr", "local"]⟩ = some true ∧
    check_directories_spec ⟨none, some "!ROOT!/usr/local"⟩
      ⟨"file.txt", ["opt", "usr", "local"]⟩ = some false := by
  refine ⟨by decide, by decide, by decide, by decide⟩

/-- C3 counterexample: the claim states that a rule set without a
`'directories'` entry makes the overall `check_path` verdict `false` for
every path; but with `name` bound to the invalid regex `"*"`, `check_name`
raises `re.error` during the call (modelled `none`), so `check_path` does
not return `false`. -/
theorem c3_counterexample :
    check_path ⟨some "*", none⟩ ⟨"x", []⟩ ≠ some false := by decide

/-- C3 amended: for every rule set whose rules mapping lacks a
`'directories'` entry and every path, `check_directories` returns `false`
immediately, and `check_path` never returns `true` (it returns `false`
whenever the name check does not raise). -/
theorem c3_amended_missing_directories (r : Rules) (p : PathC)
    (h : r.directories = none) :
    check_directories r p = some false ∧ check_path r p ≠ some true := by
  have hd : check_directories r p = some false := by
    unfold check_directories check_directories_with
    rw [h]
  refine ⟨hd, ?_⟩
  unfold check_path
  rw [hd]
  cases hn : check_name r p with
  | none => simp
  | some nm => simp

theorem c3_amended_missing_directories_witness :
    check_directories ⟨some "a", none⟩ ⟨"x", []⟩ = some false ∧
      check_path ⟨some "a", none⟩ ⟨"x", []⟩ ≠ some true :=
  c3_amended_missing_directories ⟨some "a", none⟩ ⟨"x", []⟩ rfl

/-- C7: within a run of `check_directories`, the `Failed` state is
terminal.  Conjuncts: (1) whenever a loop-entry state (which always
carries a present `part`, by (3) for the initial state and (4) for every
state surviving `validate_pattern_part`) is evaluated and the evaluation
phase ends in `failed`, the subsequent `validate_pattern_part` check never
overwrites it — in particular not with `Succeeded`; (2) once the state is
`failed` the loop stops at once and the run's verdict is `false`;
(3) the initial state's component cursor is never exhausted, and (4) any
state that is still `undetermined` after `validate_pattern_part` has both
cursors present — hence a `SkipFixed` token is never evaluated with the
component cursor already exhausted, and the claim's `SkipFixed` failure
clause can never fire outside its `part is None` guard. -/
theorem c7_failed_is_terminal :
    (∀ st st1 : MState, st.match_state = MatchSt.undetermined →
      st.part.isSome = true →
      eval_dispatch_with get_rule_type st = some st1 →
      st1.match_state = MatchSt.failed →
      (validate_pattern_part st1).match_state = MatchSt.failed) ∧
    (∀ (fuel : Nat) (st : MState), st.match_state = MatchSt.failed →
      loopN_with get_rule_type fuel st = some st ∧
      ((loopN_with get_rule_type fuel st).map fun s =>
        if s.match_state = MatchSt.succeeded then true else false) =
          some false) ∧
    (∀ (dirs_rule : String) (path : PathC),
      (init_check_dirs_loop dirs_rule path).part.isSome = true) ∧
    (∀ st : MState,
      (validate_pattern_part st).match_state = MatchSt.undetermined →
      (validate_pattern_part st).part.isSome = true) := by
  refine ⟨?_, ?_, ?_, ?_⟩
  · intro st st1 hu hpart heval hf
    obtain ⟨q, hq⟩ := Option.isSome_iff_exists.mp hpart
    unfold eval_dispatch_with at heval
    cases hp : st.pattern with
    | none => simp [hp] at heval
    | some p =>
      simp only [hp] at heval
      rcases hrt : get_rule_type p with ⟨rtv, rd⟩
      cases rtv with
      | root =>
        simp only [hrt, Option.some.injEq] at heval
        subst heval
        simp only [validate_pattern_part]
        rw [show (eval_rule_root st).pattern = st.pattern from rfl,
          show (eval_rule_root st).part = st.part from rfl, hp, hq]
        simpa using hf
      | skip_fixed =>
        simp only [hrt, Option.some.injEq] at heval
        subst heval
        simp only [eval_rule_skip_fixed, hq] at hf
        simp only [hu] at hf
        simp at hf
      | skip_variable =>
        simp only [hrt, Option.some.injEq] at heval
        subst heval
        simp only [eval_rule_skip_variable] at hf
        rw [hu] at hf
        simp at hf
      | dir_name =>
        simp only [hrt] at heval
        unfold eval_rule_dir_name at heval
        simp only [hp, hq] at heval
        cases hm : reMatchO p q with
        | none => simp [hm] at heval
        | some b =>
          rw [hm] at heval
          simp only [Option.map_some', Option.some.injEq] at heval
          cases b with
          | true =>
            simp only at heval
            subst heval
            simp [hu] at hf
          | false =>
            by_cases hv : st.variable_skip
            · simp only [hv] at heval
              simp at heval
              subst heval
              simp [hu] at hf
            · simp only [Bool.not_eq_true] at hv
              simp [hv] at heval
              subst heval
              simp [validate_pattern_part, hp, hq]
  · intro fuel st h
    have t := loopN_terminal get_rule_type fuel st (by simp [h])
    refine ⟨t, ?_⟩
    rw [t]
    simp [h]
  · intro dirs_rule path
    exact head?_isSome_of_ne_nil (prepare_path_parts_ne_nil path)
  · intro st h
    obtain ⟨a, b, c⟩ := validate_keeps_undet_cursors st h
    rw [c]
    exact b

theorem c7_failed_is_terminal_witness :
    (validate_pattern_part
      ⟨[], ["/"], some "a", some "b", MatchSt.failed, false⟩).match_state =
      MatchSt.failed :=
  c7_failed_is_terminal.1
    ⟨[], ["/"], some "a", some "b", MatchSt.undetermined, false⟩
    ⟨[], ["/"], some "a", some "b", MatchSt.failed, false⟩
    rfl rfl (by decide) rfl

/-- C9: the automaton loop always terminates, bounded by the number of
path components plus the number of tokens.  Conjuncts: (1) every loop
iteration that does not reach a terminal match state strictly decreases
the remaining-work measure `M` (both cursors' leftover elements); (2) for
every directories rule and path, running the loop from the initial state
with `M + 1` iterations of fuel resolves it: the result (when no exception
interrupts the run) is never still `undetermined`. -/
theorem c9_loop_terminates :
    (∀ st st1 : MState, st.match_state = MatchSt.undetermined →
      step_with get_rule_type st = some st1 →
      st1.match_state = MatchSt.undetermined → M st1 < M st) ∧
    ∀ (dirs_rule : String) (path : PathC),
      ((loopN_with get_rule_type
          (M (init_check_dirs_loop dirs_rule path) + 1)
          (init_check_dirs_loop dirs_rule path)).all
        fun st2 => decide (st2.match_state ≠ MatchSt.undetermined)) = true := by
  constructor
  · exact fun st st1 => step_decrease get_rule_type st st1
  · intro dirs_rule path
    cases hres : loopN_with get_rule_type
        (M (init_check_dirs_loop dirs_rule path) + 1)
        (init_check_dirs_loop dirs_rule path) with
    | none => rfl
    | some st2 =>
      have hterm := loop_resolves get_rule_type
        (M (init_check_dirs_loop dirs_rule path) + 1)
        (init_check_dirs_loop dirs_rule path) st2 (Nat.lt_succ_self _) hres
      simp [Option.all, hterm]

theorem c9_loop_terminates_witness :
    M ⟨[], ["/"], some "a", some "a", MatchSt.undetermined, false⟩ <
      M ⟨["a"], ["a", "/"], some "b", some "b",
          MatchSt.undetermined, false⟩ :=
  c9_loop_terminates.1
    ⟨["a"], ["a", "/"], some "b", some "b", MatchSt.undetermined, false⟩
    ⟨[], ["/"], some "a", some "a", MatchSt.undetermined, false⟩
    rfl (by decide) rfl

theorem dirs_skip_then_succeed (n : Nat) (st : MState)
    (hp : st.pattern = some "!DIRS!") (hpl : st.patterns = [])
    (hu : st.match_state = MatchSt.undetermined) :
    loopN_with get_rule_type (n + 1) st =
      some { st with pattern := none, patterns := [],
                     variable_skip := true,
                     match_state := MatchSt.succeeded } := by
  rw [loopN_with, if_pos hu]
  have hstep : step_with get_rule_type st =
      some { st with pattern := none, patterns := [],
                     variable_skip := true,
                     match_state := MatchSt.succeeded } := by
    have h1 : get_rule_type "!DIRS!" = (RuleType.skip_variable, none) := by
      decide
    simp [step_with, eval_dispatch_with, hp, h1, eval_rule_skip_variable,
      validate_pattern_part, hpl]
  rw [hstep]
  simp only [Option.some_bind]
  exact loopN_terminal _ _ _ (by simp)

theorem c8_loop (x : String) (xs : List String) (n : Nat) :
    loopN_with get_rule_type (n + 2)
      { patterns := ["!DIRS!"], path_parts := x :: xs,
        pattern := some "etc", part := some "etc",
        match_state := MatchSt.undetermined, variable_skip := false } =
      some { patterns := [], path_parts := xs, pattern := none,
             part := some x, match_state := MatchSt.succeeded,
             variable_skip := true } := by
  rw [loopN_with, if_pos rfl]
  have hstep : step_with get_rule_type
      { patterns := ["!DIRS!"], path_parts := x :: xs,
        pattern := some "etc", part := some "etc",
        match_state := MatchSt.undetermined, variable_skip := false } =
      some { patterns := ([] : List String), path_parts := xs,
             pattern := some "!DIRS!", part := some x,
             match_state := MatchSt.undetermined, variable_skip := false } := by
    have h1 : get_rule_type "etc" = (RuleType.dir_name, none) := by decide
    have h2 : reMatchO "etc" "etc" = some true := by decide
    simp [step_with, eval_dispatch_with, eval_rule_dir_name, h1, h2,
      validate_pattern_part]
  rw [hstep]
  simp only [Option.some_bind]
  rw [dirs_skip_then_succeed n _ rfl rfl rfl]

/-- C8: the `!DIRS!` token absorbs zero or more arbitrary intermediate
directories: the directories rule `"!DIRS!/etc"` produces a `true` verdict
for `/etc/file` (zero skipped directories), for `/a/b/etc/file` (two
skipped), and in general for any path whose innermost ancestor directory
is `etc`, whatever stack of directories lies above it. -/
theorem c8_skip_variable_examples :
    check_directories ⟨none, some "!DIRS!/etc"⟩ ⟨"file", ["etc"]⟩ =
      some true ∧
    check_directories ⟨none, some "!DIRS!/etc"⟩ ⟨"file", ["a", "b", "etc"]⟩ =
      some true ∧
    ∀ mids : List String,
      check_directories ⟨none, some "!DIRS!/etc"⟩
        ⟨"file", mids ++ ["etc"]⟩ = some true := by
  refine ⟨by decide, by decide, ?_⟩
  intro mids
  show (loopN_with get_rule_type
      (M (init_check_dirs_loop "!DIRS!/etc" ⟨"file", mids ++ ["etc"]⟩) + 1)
      (init_check_dirs_loop "!DIRS!/etc" ⟨"file", mids ++ ["etc"]⟩)).map
    (fun st => if st.match_state = MatchSt.succeeded then true else false) =
      some true
  have hinit : init_check_dirs_loop "!DIRS!/etc" ⟨"file", mids ++ ["etc"]⟩ =
      { patterns := ["!DIRS!"], path_parts := mids.reverse ++ ["/"],
        pattern := some "etc", part := some "etc",
        match_state := MatchSt.undetermined, variable_skip := false } := by
    have hpp : prepare_path_patterns "!DIRS!/etc" = ["etc", "!DIRS!"] := by
      decide
    have hpr : prepare_path_parts ⟨"file", mids ++ ["etc"]⟩ =
        "etc" :: (mids.reverse ++ ["/"]) := by
      simp [prepare_path_parts]
    unfold init_check_dirs_loop
    rw [hpp, hpr]
    rfl
  rw [hinit]
  obtain ⟨x, xs, hxx⟩ : ∃ x xs, mids.reverse ++ ["/"] = x :: xs := by
    cases mids.reverse with
    | nil => exact ⟨"/", [], rfl⟩
    | cons a l => exact ⟨a, l ++ ["/"], rfl⟩
  rw [hxx]
  have hM : M { patterns := ["!DIRS!"], path_parts := x :: xs,
                pattern := some "etc", part := some "etc",
                match_state := MatchSt.undetermined,
                variable_skip := false } + 1 =
      (xs.length + 3) + 2 := by
    simp [M, optCount]
    omega
  rw [hM, c8_loop x xs (xs.length + 3)]
  rfl

/-- C4 counterexample: the claim says a configured name pattern makes
`name_matches` true iff the regex matches the base name; with the key
`'name'` bound to `""` (a configured pattern), the empty regex matches
`"x"` yet `check_name` answers `false`, because `if name_rule and ...`
treats the empty string as falsy. -/
theorem c4_counterexample :
    ¬((check_name ⟨some "", none⟩ ⟨"x", []⟩ = some true) ↔
      (reMatchO "" "x" = some true)) := by decide

/-- C4 amended: `check_name` returns `false` when no name pattern is
configured or the configured pattern is the empty string (falsy); for a
nonempty pattern it returns exactly the prefix-anchored regex match of the
base name (raising if the regex is invalid), independent of the
directories outcome: `^report_.*\.csv$` accepts `report_2020.csv` and
rejects `other.csv`. -/
theorem c4_amended_check_name :
    (∀ (d : Option String) (p : PathC), check_name ⟨none, d⟩ p = some false) ∧
    (∀ (d : Option String) (p : PathC),
      check_name ⟨some "", d⟩ p = some false) ∧
    (∀ (d : Option String) (p : PathC) (nr : String), nr ≠ "" →
      check_name ⟨some nr, d⟩ p = reMatchO nr p.name) ∧
    check_name ⟨some "^report_.*\\.csv$", none⟩ ⟨"report_2020.csv", []⟩ =
      some true ∧
    check_name ⟨some "^report_.*\\.csv$", none⟩ ⟨"other.csv", []⟩ =
      some false := by
  refine ⟨?_, ?_, ?_, by decide, by decide⟩
  · intro d p
    rfl
  · intro d p
    simp [check_name]
  · intro d p nr h
    simp [check_name, h]

theorem c4_amended_check_name_witness :
    check_name ⟨some "usr", none⟩ ⟨"usr2", []⟩ = reMatchO "usr" "usr2" :=
  c4_amended_check_name.2.2.1 none ⟨"usr2", []⟩ "usr" (by decide)

/-- C5 counterexample: the claim says every `!DIRS_<s>!` token with a
zero suffix is classified as a `DirName` literal; but
`re.match(r'!DIRS_(\d+)!', '!DIRS_0!')` succeeds with group `'0'`, so
`get_rule_type` classifies `"!DIRS_0!"` as `skip_fixed`, not `dir_name`. -/
theorem c5_counterexample :
    (get_rule_type "!DIRS_0!").1 ≠ RuleType.dir_name := by decide

theorem takeWhile_digits (ds : List Char)
    (h : ∀ c, c ∈ ds → c.isDigit = true) :
    (ds ++ ['!']).takeWhile Char.isDigit = ds := by
  induction ds with
  | nil => decide
  | cons c cs ih =>
    have hc : c.isDigit = true := h c (List.mem_cons_self c cs)
    simp only [List.cons_append, List.takeWhile_cons, hc, if_true]
    rw [ih (fun x hx => h x (List.mem_cons_of_mem c hx))]

/-- C5 amended: a `!DIRS_<s>!` token whose suffix is missing or contains a
non-digit is classified as a `DirName` literal; a suffix that is any
nonempty string of digits — including `0` — is classified as
`SkipFixed(n)` with `n` the parsed number (so `"!DIRS_0!"` yields
`SkipFixed(0)`, which the skip loop treats like `SkipFixed(1)`, not a
`DirName` literal). -/
theorem c5_amended_dirs_token_classification :
    (∀ ds : List Char, ds ≠ [] → (∀ c, c ∈ ds → c.isDigit = true) →
      get_rule_type
          (String.mk ('!' :: 'D' :: 'I' :: 'R' :: 'S' :: '_' ::
            (ds ++ ['!']))) =
        (RuleType.skip_fixed, some (digitsToNat ds))) ∧
    get_rule_type "!DIRS_!" = (RuleType.dir_name, none) ∧
    get_rule_type "!DIRS_x!" = (RuleType.dir_name, none) ∧
    get_rule_type "!DIRS_0!" = (RuleType.skip_fixed, some 0) := by
  refine ⟨?_, by decide, by decide, by decide⟩
  intro ds hne hdig
  unfold get_rule_type
  have h1 : String.mk ('!' :: 'D' :: 'I' :: 'R' :: 'S' :: '_' ::
      (ds ++ ['!'])) ≠ "!DIRS!" := by
    intro h
    have h2 := congrArg String.data h
    have h3 : "!DIRS!".data = ['!', 'D', 'I', 'R', 'S', '!'] := rfl
    rw [h3] at h2
    simp at h2
  rw [if_neg h1]
  have hpd : parseDirsN
      (String.mk ('!' :: 'D' :: 'I' :: 'R' :: 'S' :: '_' :: (ds ++ ['!']))) =
      some (digitsToNat ds) := by
    unfold parseDirsN
    have hc : (String.mk ('!' :: 'D' :: 'I' :: 'R' :: 'S' :: '_' ::
        (ds ++ ['!']))).toList.take 6 = ['!', 'D', 'I', 'R', 'S', '_'] := rfl
    rw [if_pos hc]
    have hdrop : (String.mk ('!' :: 'D' :: 'I' :: 'R' :: 'S' :: '_' ::
        (ds ++ ['!']))).toList.drop 6 = ds ++ ['!'] := rfl
    rw [hdrop]
    rw [takeWhile_digits ds hdig]
    rw [List.drop_left]
    cases ds with
    | nil => exact absurd rfl hne
    | cons c cs => rfl
  rw [hpd]

theorem c5_amended_dirs_token_classification_witness :
    get_rule_type
        (String.mk ('!' :: 'D' :: 'I' :: 'R' :: 'S' :: '_' ::
          (['0'] ++ ['!']))) =
      (RuleType.skip_fixed, some (digitsToNat ['0'])) :=
  c5_amended_dirs_token_classification.1 ['0'] (by decide) (by decide)

/-- C6 counterexample: the claim says matching never raises and that
regex-syntax errors surface only at rule-compilation time; but the code
has no compilation stage — `re.match` compiles lazily during matching —
so a rule set whose name pattern is the invalid regex `"*"` ("nothing to
repeat") raises `re.error` inside `check_path` (modelled `none`) instead
of computing a boolean verdict. -/
theorem c6_counterexample :
    check_path ⟨some "*", some "etc"⟩ ⟨"x", []⟩ = none := by decide

/-- C6 amended: when every regex the rule set can evaluate — the name
pattern (unless falsy) and every directory token — compiles without
error, matching never raises: `check_path` totally computes a boolean
verdict for every path, with absent or falsy rule components yielding a
`false` verdict.  Regexes are compiled lazily inside the matching call
itself, so a malformed regex surfaces there and not at construction. -/
theorem c6_amended_total_when_regexes_valid (r : Rules) (p : PathC)
    (h : rulesOk r = true) : (check_path r p).isSome = true := by
  rw [rulesOk, Bool.and_eq_true] at h
  obtain ⟨hn, hd⟩ := h
  have hname : (check_name r p).isSome = true := by
    unfold check_name
    cases hrn : r.name with
    | none => rfl
    | some nr =>
      simp only [hrn] at hn
      show (if nr = "" then some false else reMatchO nr p.name).isSome = true
      by_cases he : nr = ""
      · simp [he]
      · rw [if_neg he]
        have hok : regexOk nr = true := by
          cases hbe : (nr == "") with
          | true => exact absurd (by simpa using hbe) he
          | false => simpa [hbe] using hn
        obtain ⟨ps, hps⟩ := Option.isSome_iff_exists.mp hok
        unfold reMatchO
        rw [hps]
        rfl
  have hdirs : (check_directories r p).isSome = true := by
    unfold check_directories check_directories_with
    cases hrd : r.directories with
    | none => rfl
    | some dr =>
      simp only [hrd] at hd
      show ((loopN_with get_rule_type
          (M (init_check_dirs_loop dr p) + 1)
          (init_check_dirs_loop dr p)).map fun st =>
        if st.match_state = MatchSt.succeeded then true else false).isSome =
          true
      have hall := List.all_eq_true.mp hd
      have hloop := loop_isSome (M (init_check_dirs_loop dr p) + 1)
        (init_check_dirs_loop dr p)
        (fun q hq => by
          simpa using hall q (by exact head?_mem hq))
        (fun q hq => by
          simpa using hall q (by exact List.tail_subset _ hq))
        (fun _ => ⟨head?_isSome_of_ne_nil (prepare_path_patterns_ne_nil dr),
          head?_isSome_of_ne_nil (prepare_path_parts_ne_nil p)⟩)
      obtain ⟨stf, hstf⟩ := Option.isSome_iff_exists.mp hloop
      rw [hstf]
      rfl
  unfold check_path
  obtain ⟨nb, hnb⟩ := Option.isSome_iff_exists.mp hname
  obtain ⟨db, hdb⟩ := Option.isSome_iff_exists.mp hdirs
  rw [hnb, hdb]
  rfl

theorem c6_amended_total_when_regexes_valid_witness :
    (check_path ⟨some "a", some "b/c"⟩ ⟨"z", ["q"]⟩).isSome = true :=
  c6_amended_total_when_regexes_valid ⟨some "a", some "b/c"⟩ ⟨"z", ["q"]⟩
    (by decide)

/-- C10 counterexample: the claim says that with `'name'` bound to the
empty string the overall `check_path` verdict is `false` for every path;
but `check_path` always evaluates the directories check too, so with a
directories rule containing the invalid regex `"*"` the call raises
(modelled `none`) rather than returning `false`. -/
theorem c10_counterexample :
    check_path ⟨some "", some "*"⟩ ⟨"x", []⟩ ≠ some false := by decide

/-- C10 amended: with `'name'` bound to the empty string the name check
returns `false` for every path, an empty name pattern behaves exactly like
an absent one (`check_path` is identical in the two cases), and
`check_path` never returns `true` — it returns `false` whenever the
directories check completes without raising. -/
theorem c10_amended_empty_name (d : Option String) (p : PathC) :
    check_name ⟨some "", d⟩ p = some false ∧
    check_path ⟨some "", d⟩ p = check_path ⟨none, d⟩ p ∧
    check_path ⟨some "", d⟩ p ≠ some true := by
  have h1 : check_name ⟨some "", d⟩ p = some false := by simp [check_name]
  have h0 : check_name (⟨none, d⟩ : Rules) p = some false := rfl
  have hd : check_directories ⟨some "", d⟩ p =
      check_directories ⟨none, d⟩ p := rfl
  refine ⟨h1, ?_, ?_⟩
  · unfold check_path
    rw [h1, h0, hd]
  · unfold check_path
    rw [h1]
    simp only [Option.some_bind]
    cases hdd : check_directories ⟨some "", d⟩ p with
    | none => simp
    | some db => simp
